import Mathlib

/-
Verification of the real-time session controller of the Astro_Chat web
client: the WebSocket hook (useWebSocket) and the chat page's send /
typing-coordinator logic, shallowly embedded from the TypeScript source.
-/

namespace AstroChat

/-- Embedding of the IUser record from src/lib/type.ts. -/
structure User where
  id : Nat
  username : String
  email : String
deriving DecidableEq, Repr

/-- Discriminator of an inbound frame.  The TypeScript union names three
tags; `other` stands for any unrecognized tag, which the switch statement
in the onmessage handler silently ignores. -/
inductive FrameType where
  | chat_message
  | typing
  | online_status
  | other
deriving DecidableEq, Repr

/-- Embedding of IWebSocketMessage from src/lib/type.ts: a parsed inbound
frame with all payload fields optional, exactly as in the interface. -/
structure WSFrame where
  type : FrameType
  message : Option String := none
  user : Option User := none
  timestamp : Option String := none
  receiver : Option Nat := none
  is_typing : Option Bool := none
  online_users : Option (List User) := none
  status : Option String := none
deriving DecidableEq, Repr

/-- Raw inbound data: either JSON.parse fails (`malformed`) or yields a
structured frame. -/
inductive RawInbound where
  | malformed
  | parsed (f : WSFrame)
deriving DecidableEq, Repr

/-- Embedding of the IMessage record from src/lib/type.ts. -/
structure Message where
  id : Nat
  content : String
  sender : User
  conversation : Nat
  created_at : String
deriving DecidableEq, Repr

/-- UI callback invocations made by the onmessage handler. -/
inductive Callback where
  | onMessage (m : Message)
  | onTyping (u : User) (isTyping : Bool)
  | onUserStatus (users : List User) (status : String)
deriving DecidableEq, Repr

/-- Event dispatch, translated from the body of the onmessage handler in
useWebSocket (src/unnamed/part_001, lines 46-79).  `cid` is the hook's
current conversationId, `now` the value Date.now() returns when the frame
is handled.  JavaScript truthiness on strings means the empty string
fails the field guards, hence the explicit emptiness tests. -/
def dispatch (cid now : Nat) : RawInbound → List Callback
  | RawInbound.malformed => []
  | RawInbound.parsed f =>
    match f.type with
    | FrameType.chat_message =>
      match f.message, f.user, f.timestamp with
      | some m, some u, some ts =>
        if m = "" ∨ ts = "" then []
        else [Callback.onMessage ⟨now, m, u, cid, ts⟩]
      | _, _, _ => []
    | FrameType.typing =>
      match f.user with
      | some u => [Callback.onTyping u (f.is_typing.getD false)]
      | none => []
    | FrameType.online_status =>
      match f.online_users, f.status with
      | some us, some st =>
        if st = "" then [] else [Callback.onUserStatus us st]
      | _, _ => []
    | FrameType.other => []

/-- Lifecycle states of the underlying browser WebSocket. -/
inductive WSReady where
  | connecting
  | opened
  | closing
  | closed
deriving DecidableEq, Repr

/-- Observable state of the useWebSocket hook: the socket's readiness,
the two React state cells (isConnected, connectionError), and the pending
reconnect timer's delay if one is scheduled. -/
structure HookState where
  ready : WSReady
  isConnected : Bool
  connectionError : Option String
  pendingReconnect : Option Nat
deriving DecidableEq, Repr

/-- Transport-level events delivered to the hook's handlers. -/
inductive WSEvent where
  | onopen
  | onmessage (raw : RawInbound)
  | onclose (code : Nat)
  | onerror
deriving DecidableEq, Repr

/-- Translation of the four event handlers installed by connect()
(src/unnamed/part_001, lines 40-97): onopen sets isConnected and clears
the error; onmessage only dispatches callbacks; onclose clears
isConnected and schedules a 3000 ms reconnect unless the closure code is
1000; onerror records the error string and clears isConnected. -/
def handleEvent (cid now : Nat) (st : HookState) : WSEvent → HookState × List Callback
  | WSEvent.onopen =>
    ({ st with ready := WSReady.opened, isConnected := true, connectionError := none }, [])
  | WSEvent.onmessage raw => (st, dispatch cid now raw)
  | WSEvent.onclose code =>
    ({ st with
        ready := WSReady.closed
        isConnected := false
        pendingReconnect := if code = 1000 then st.pendingReconnect else some 3000 }, [])
  | WSEvent.onerror =>
    ({ st with isConnected := false, connectionError := some "Connection failed" }, [])

/-- JavaScript truthiness of a nullable number: null and 0 are falsy. -/
def jsTruthyNat : Option Nat → Bool
  | none => false
  | some n => n != 0

/-- JavaScript truthiness of a nullable string: null and "" are falsy. -/
def jsTruthyStr : Option String → Bool
  | none => false
  | some s => s != ""

/-- Parameters with which connect() opens a new WebSocket: the URL is
built from the current conversation id and access token. -/
structure ConnectAttempt where
  convId : Nat
  token : String
deriving DecidableEq, Repr

/-- Translation of connect() (src/unnamed/part_001, lines 26-38) at the
level of one socket slot: the guard returns early unless both the
conversation id and the token are truthy; otherwise a new socket is
created for the (conversation id, token) pair. -/
def connect (cid : Option Nat) (tok : Option String) (st : HookState) :
    HookState × Option ConnectAttempt :=
  if jsTruthyNat cid && jsTruthyStr tok then
    ({ st with ready := WSReady.connecting },
     some ⟨cid.getD 0, tok.getD ""⟩)
  else (st, none)

/-- One closure followed by the firing of whatever reconnect timer the
onclose handler left pending: the timer callback runs connect() with the
hook's current conversation id and token, consuming the timer.  Returns
the recorded (delay, attempt) pairs. -/
def closeFireCycle (cid : Nat) (tok : String) (st : HookState) (code : Nat) :
    HookState × List (Nat × ConnectAttempt) :=
  let st1 := (handleEvent cid 0 st (WSEvent.onclose code)).1
  match st1.pendingReconnect with
  | some d =>
    let res := connect (some cid) (some tok) { st1 with pendingReconnect := none }
    (res.1, match res.2 with
            | some a => [(d, a)]
            | none => [])
  | none => (st1, [])

/-- Iterated closure/reconnect cycles over a list of closure codes. -/
def reconnectRun (cid : Nat) (tok : String) (st : HookState) : List Nat → List (Nat × ConnectAttempt)
  | [] => []
  | code :: rest =>
    let step := closeFireCycle cid tok st code
    step.2 ++ reconnectRun cid tok step.1 rest

/-- Outbound wire frames produced by sendMessage and sendTyping
(src/unnamed/part_001, lines 116-134). -/
inductive OutFrame where
  | chat_message (message : String) (user : Nat)
  | typing (receiver : Nat) (is_typing : Bool)
deriving DecidableEq, Repr

/-- Translation of sendMessage (src/unnamed/part_001, lines 116-124):
a frame is sent only when the socket exists, its readyState is OPEN and
a user is logged in; otherwise nothing happens and nothing is returned. -/
def sendMessage (ws : Option WSReady) (user : Option User) (text : String) : Option OutFrame :=
  match ws, user with
  | some WSReady.opened, some u => some (OutFrame.chat_message text u.id)
  | _, _ => none

/-- Translation of sendTyping (src/unnamed/part_001, lines 126-134):
a typing frame is sent only when the socket exists and is OPEN. -/
def sendTyping (ws : Option WSReady) (receiverId : Nat) (isTyping : Bool) : Option OutFrame :=
  match ws with
  | some WSReady.opened => some (OutFrame.typing receiverId isTyping)
  | _ => none

/-- Conversation kind from src/lib/type.ts. -/
inductive ConvType where
  | direct
  | group
deriving DecidableEq, Repr

/-- Embedding of the parts of IConversation the typing coordinator
reads; participants is optional because every access in the page goes
through optional chaining. -/
structure Conversation where
  id : Nat
  participants : Option (List User) := none
  conversation_type : ConvType
deriving DecidableEq, Repr

/-- What one invocation of the chat page's handleSendMessage does
(src/app/chats/page.tsx, lines 127-139): which frame reached the wire,
which error string setError was called with, and whether the input box
was cleared. -/
structure SendOutcome where
  wire : Option OutFrame
  errorSet : Option String
  inputCleared : Bool
deriving DecidableEq, Repr

/-- Embedding of JavaScript String.prototype.trim: strip leading and
trailing whitespace (kept kernel-computable, unlike String.trim). -/
def jsTrim (s : String) : String :=
  ⟨((s.data.dropWhile Char.isWhitespace).reverse.dropWhile Char.isWhitespace).reverse⟩

/-- Translation of handleSendMessage (src/app/chats/page.tsx, lines
127-139): empty-after-trim text or no selected conversation returns
early, silently.  Otherwise the trimmed text is handed to the
transport's sendMessage and the input is cleared.  The catch branch that
calls setError can never run because sendMessage is total and never
throws, so errorSet is none on every path. -/
def handleSendMessage (newMessage : String) (selected : Option Conversation)
    (ws : Option WSReady) (user : Option User) : SendOutcome :=
  if jsTrim newMessage = "" ∨ selected = none then ⟨none, none, false⟩
  else ⟨sendMessage ws user (jsTrim newMessage), none, true⟩

/-- Frames emitted by the body of either typing timer callback
(src/app/chats/page.tsx, lines 150-161 and 170-181): for a group
conversation one sendTyping call per participant other than the local
user; otherwise a single sendTyping call whose receiver is the first
participant with a different id, or 0 when none exists (the JavaScript
fallback `|| 0`, which also maps an id of 0 to 0). -/
def typingEmissionFrames (ws : Option WSReady) (conv : Conversation) (u : User)
    (flag : Bool) : List OutFrame :=
  if conv.conversation_type = ConvType.group then
    (conv.participants.getD []).filterMap fun p =>
      if p.id != u.id then sendTyping ws p.id flag else none
  else
    (sendTyping ws
      ((((conv.participants.getD []).find? fun p => p.id != u.id).map User.id).getD 0)
      flag).toList

/-- Pending typing timers of the chat page (absolute fire times):
typingDebounceRef (start, 500 ms) and typingTimeoutRef (stop, 2000 ms). -/
structure TypState where
  startT : Option Nat
  stopT : Option Nat
deriving DecidableEq, Repr

/-- The two coordinator emissions: the 500 ms debounce callback marks
typing started, the 2000 ms inactivity callback marks it stopped. -/
inductive Emit where
  | start
  | stop
deriving DecidableEq, Repr

/-- Whether a timer with absolute fire time `f` runs before the event
loop reaches time `bound` (none meaning the end of the trace, when every
pending timer eventually runs). -/
def isDue (bound : Option Nat) (f : Nat) : Bool :=
  match bound with
  | none => true
  | some t => f < t

/-- Run the pending timers that are due before `bound`, in chronological
order (whenever both are pending the start timer was set 500 ms and the
stop timer 2000 ms after the same keystroke, so start fires first). -/
def fireTimers (bound : Option Nat) (st : TypState) : TypState × List (Nat × Emit) :=
  let s1 := match st.startT with
    | some f => if isDue bound f then (TypState.mk none st.stopT, [(f, Emit.start)]) else (st, [])
    | none => (st, [])
  match s1.1.stopT with
  | some f => if isDue bound f then (⟨s1.1.startT, none⟩, s1.2 ++ [(f, Emit.stop)]) else s1
  | none => s1

/-- Translation of handleTypingStart (src/app/chats/page.tsx, lines
141-183): an early return when no conversation is selected or no user is
logged in; otherwise both timers are cleared and re-armed, the start one
500 ms and the stop one 2000 ms from now. -/
def handleTypingStart (conv : Option Conversation) (u : Option User)
    (st : TypState) (t : Nat) : TypState :=
  match conv, u with
  | some _, some _ => ⟨some (t + 500), some (t + 2000)⟩
  | _, _ => st

/-- Event-loop run of the typing coordinator over a chronological list
of keystroke times: before each keystroke the timers already due run,
then handleTypingStart processes the keystroke; at the end of the trace
the remaining timers run. -/
def runTyping (conv : Option Conversation) (u : Option User) (st : TypState) :
    List Nat → List (Nat × Emit)
  | [] => (fireTimers none st).2
  | t :: ts =>
    let fired := fireTimers (some t) st
    fired.2 ++ runTyping conv u (handleTypingStart conv u fired.1 t) ts

/-- The Message records delivered to the onMessage callback while a list
of raw frames arrives, pairing each arrival with the Date.now() reading
at which it is handled. -/
def acceptedMessages (cid : Nat) : List (Nat × RawInbound) → List Message
  | [] => []
  | (now, raw) :: rest =>
    ((dispatch cid now raw).filterMap fun cb =>
      match cb with
      | Callback.onMessage m => some m
      | _ => none) ++ acceptedMessages cid rest

/-- Locally assigned identities of the accepted messages, in arrival
order. -/
def msgIds (cid : Nat) (arr : List (Nat × RawInbound)) : List Nat :=
  (acceptedMessages cid arr).map Message.id

/-- The Date.now() readings at the accepting arrivals: one reading per
arrival whose dispatch delivers a message to the onMessage callback,
in arrival order (arrivals whose frame is dropped or carries another
event kind contribute nothing). -/
def acceptingTimes (cid : Nat) : List (Nat × RawInbound) → List Nat
  | [] => []
  | (now, raw) :: rest =>
    (((dispatch cid now raw).filterMap fun cb =>
        match cb with
        | Callback.onMessage m => some m
        | _ => none).map fun _ => now) ++ acceptingTimes cid rest

/-- One WebSocket instance as the controller sees it: its target pair,
whether it is still in a non-Closed state, and the code of the local
close() call that ended it, when one did (close() with no argument is
recorded as none). -/
structure Conn where
  convId : Nat
  token : String
  live : Bool
  closeCode : Option Nat
deriving DecidableEq, Repr

/-- Effect of calling close on a socket: a no-op on an already dead
socket, otherwise the socket leaves its non-Closed state carrying the
given code. -/
def closeConn (code : Option Nat) (c : Conn) : Conn :=
  if c.live then { c with live := false, closeCode := code } else c

/-- Controller-level connection bookkeeping: the socket wsRef currently
points at, plus every socket the ref has abandoned. -/
structure Ctrl where
  current : Option Conn
  past : List Conn
deriving DecidableEq, Repr

/-- Translation of the connection-opening part of connect()
(src/unnamed/part_001, lines 29-38), assuming the truthiness guard
passed: any existing socket is closed first (close() with no code), then
wsRef is repointed at a fresh socket for the pair. -/
def ctrlConnect (cid : Nat) (tok : String) (st : Ctrl) : Ctrl :=
  match st.current with
  | some c => ⟨some ⟨cid, tok, true, none⟩, closeConn none c :: st.past⟩
  | none => ⟨some ⟨cid, tok, true, none⟩, st.past⟩

/-- Guarded connect(): the early return when conversation id or token is
falsy (src/unnamed/part_001, line 27). -/
def ctrlConnectGuard (cid : Option Nat) (tok : Option String) (st : Ctrl) : Ctrl :=
  if jsTruthyNat cid && jsTruthyStr tok then ctrlConnect (cid.getD 0) (tok.getD "") st
  else st

/-- Translation of disconnect() (src/unnamed/part_001, lines 105-114):
the pending reconnect timer is cleared, the current socket (if any) is
closed with code 1000 and wsRef is set to null. -/
def ctrlDisconnect (st : Ctrl) : Ctrl :=
  match st.current with
  | some c => ⟨none, closeConn (some 1000) c :: st.past⟩
  | none => st

/-- Controller-level operations: a change of the (conversation id,
token) selection driving the effect of src/unnamed/part_001 lines
137-147, the firing of a reconnect timer (which just calls connect), a
transport-level closure of the current socket, and unmount. -/
inductive CtrlOp where
  | setSelection (cid : Option Nat) (tok : Option String)
  | reconnectFire (cid : Option Nat) (tok : Option String)
  | closeEvt (code : Nat)
  | unmount
deriving DecidableEq, Repr

/-- Controller step function.  A selection change first runs the
previous effect's cleanup (disconnect), then the effect body: connect
when both values are truthy, disconnect otherwise. -/
def ctrlStep (st : Ctrl) : CtrlOp → Ctrl
  | CtrlOp.setSelection cid tok =>
    let st1 := ctrlDisconnect st
    if jsTruthyNat cid && jsTruthyStr tok then ctrlConnectGuard cid tok st1
    else ctrlDisconnect st1
  | CtrlOp.reconnectFire cid tok => ctrlConnectGuard cid tok st
  | CtrlOp.closeEvt code => ⟨st.current.map (closeConn (some code)), st.past⟩
  | CtrlOp.unmount => ctrlDisconnect st

/-- Run a list of controller operations from the initial state (no
socket ever created). -/
def ctrlRun (ops : List CtrlOp) : Ctrl :=
  ops.foldl ctrlStep ⟨none, []⟩

/-- Every socket the controller ever created, current one included. -/
def allConns (st : Ctrl) : List Conn :=
  st.past ++ st.current.toList

/-- Number of sockets in a non-Closed state. -/
def liveCount (st : Ctrl) : Nat :=
  ((allConns st).filter fun c => c.live).length

/-- Inbound data the dispatcher must drop: a failed structural decode,
an unrecognized discriminator, or a missing required field for the
declared type (sender for typing; user set or status label for
online_status; text, sender or timestamp for chat_message — the empty
string counting as missing under JavaScript truthiness). -/
def malformedInbound : RawInbound → Prop
  | RawInbound.malformed => True
  | RawInbound.parsed f =>
    match f.type with
    | FrameType.chat_message =>
      f.message = none ∨ f.message = some "" ∨ f.user = none ∨ f.timestamp = none
    | FrameType.typing => f.user = none
    | FrameType.online_status => f.online_users = none ∨ f.status = none
    | FrameType.other => True

/-- Claim C3: an inbound chat_message frame carrying non-empty text, a
sender and a (non-empty) timestamp invokes the message callback exactly
once, with a Message whose content, sender and created_at equal the
frame's fields and whose conversation is the current conversation id;
a frame missing any of the three fields (or with empty text) is dropped
and the callback is not invoked. -/
theorem claim_C3_chat_message_dispatch (cid now : Nat) (f : WSFrame)
    (m : String) (u : User) (ts : String) :
    (f.type = FrameType.chat_message → f.message = some m → m ≠ "" →
      f.user = some u → f.timestamp = some ts → ts ≠ "" →
      dispatch cid now (RawInbound.parsed f)
        = [Callback.onMessage ⟨now, m, u, cid, ts⟩]) ∧
    (f.type = FrameType.chat_message →
      (f.message = none ∨ f.message = some "" ∨ f.user = none ∨ f.timestamp = none) →
      dispatch cid now (RawInbound.parsed f) = []) := by
  obtain ⟨ft, fm, fu, fts, frcv, fit, fou, fst⟩ := f
  constructor
  · rintro rfl rfl hm rfl rfl hts
    simp [dispatch, hm, hts]
  · rintro rfl hbad
    rcases hbad with h | h | h | h <;> cases fm <;> cases fu <;> cases fts <;>
      simp_all [dispatch]

/-- Witness for claim C3 at a concrete accepted frame. -/
theorem claim_C3_witness :
    dispatch 42 5 (RawInbound.parsed
      { type := FrameType.chat_message, message := some "hi",
        user := some ⟨3, "bob", "b@x.y"⟩, timestamp := some "2024-01-01T00:00:00Z" })
      = [Callback.onMessage ⟨5, "hi", ⟨3, "bob", "b@x.y"⟩, 42, "2024-01-01T00:00:00Z"⟩] :=
  (claim_C3_chat_message_dispatch 42 5 _ "hi" ⟨3, "bob", "b@x.y"⟩
    "2024-01-01T00:00:00Z").1 rfl rfl (by decide) rfl rfl (by decide)

/-- Claim C4: a malformed inbound frame — failed structural decode or a
missing required field for its declared type — invokes no UI callback,
and the onmessage handler never changes the hook's connection state (in
particular it never terminates the connection); the translated handler
is a total function, so no unhandled error can be raised. -/
theorem claim_C4_malformed_dropped (cid now : Nat) (st : HookState) (raw : RawInbound) :
    (handleEvent cid now st (WSEvent.onmessage raw)).1 = st ∧
    (malformedInbound raw → (handleEvent cid now st (WSEvent.onmessage raw)).2 = []) := by
  refine ⟨rfl, fun h => ?_⟩
  show dispatch cid now raw = []
  cases raw with
  | malformed => rfl
  | parsed f =>
    obtain ⟨ft, fm, fu, fts, frcv, fit, fou, fst⟩ := f
    cases ft
    · have h' : fm = none ∨ fm = some "" ∨ fu = none ∨ fts = none := h
      rcases h' with h' | h' | h' | h' <;> cases fm <;> cases fu <;> cases fts <;>
        simp_all [dispatch]
    · have h' : fu = none := h
      subst h'
      rfl
    · have h' : fou = none ∨ fst = none := h
      rcases h' with h' | h' <;> cases fou <;> cases fst <;> simp_all [dispatch]
    · rfl

/-- Witness for claim C4 at a failed decode and at a typing frame with
no sender. -/
theorem claim_C4_witness :
    (handleEvent 1 2 ⟨WSReady.opened, true, none, none⟩
      (WSEvent.onmessage RawInbound.malformed)).1 = ⟨WSReady.opened, true, none, none⟩ ∧
    (handleEvent 1 2 ⟨WSReady.opened, true, none, none⟩
      (WSEvent.onmessage (RawInbound.parsed { type := FrameType.typing }))).2 = [] :=
  ⟨(claim_C4_malformed_dropped 1 2 ⟨WSReady.opened, true, none, none⟩
      RawInbound.malformed).1,
   (claim_C4_malformed_dropped 1 2 ⟨WSReady.opened, true, none, none⟩
      (RawInbound.parsed { type := FrameType.typing })).2 rfl⟩

/-- Claim C6: with an OPEN socket and a logged-in user of id u,
sendMessage(text) sends exactly the frame
\x7btype: chat_message, message: text, user: u\x7d; with the socket in any
other state the call sends nothing and raises or returns no error. -/
theorem claim_C6_sendMessage (ws : Option WSReady) (user : Option User) (text : String) :
    (∀ u, ws = some WSReady.opened → user = some u →
      sendMessage ws user text = some (OutFrame.chat_message text u.id)) ∧
    (ws ≠ some WSReady.opened → sendMessage ws user text = none) := by
  constructor
  · rintro u rfl rfl
    rfl
  · intro h
    cases ws with
    | none => cases user <;> rfl
    | some r => cases r <;> cases user <;> first | rfl | exact absurd rfl h

/-- Witness for claim C6: scenario A of the spec (user id 7 sends "hi"
over an open socket) and a no-op send over a connecting socket. -/
theorem claim_C6_witness :
    sendMessage (some WSReady.opened) (some ⟨7, "me", "m@x.y"⟩) "hi"
      = some (OutFrame.chat_message "hi" 7) ∧
    sendMessage (some WSReady.connecting) (some ⟨7, "me", "m@x.y"⟩) "hi" = none :=
  ⟨(claim_C6_sendMessage (some WSReady.opened) (some ⟨7, "me", "m@x.y"⟩) "hi").1
      ⟨7, "me", "m@x.y"⟩ rfl rfl,
   (claim_C6_sendMessage (some WSReady.connecting) (some ⟨7, "me", "m@x.y"⟩) "hi").2
      (by decide)⟩

/-- Claim C7 counterexample: with an open connection and a logged-in
user, whitespace-only input makes handleSendMessage return early without
forwarding a frame — but also without setting any error state, against
the claim that a local error state is surfaced to the UI.  Likewise,
with non-empty text but no open connection, the send is swallowed
silently with no error state. -/
theorem claim_C7_counterexample :
    (handleSendMessage " " (some ⟨42, some [⟨7, "me", "m@x.y"⟩], ConvType.direct⟩)
      (some WSReady.opened) (some ⟨7, "me", "m@x.y"⟩)).wire = none ∧
    (handleSendMessage " " (some ⟨42, some [⟨7, "me", "m@x.y"⟩], ConvType.direct⟩)
      (some WSReady.opened) (some ⟨7, "me", "m@x.y"⟩)).errorSet = none ∧
    (handleSendMessage "hi" (some ⟨42, some [⟨7, "me", "m@x.y"⟩], ConvType.direct⟩)
      (some WSReady.closed) (some ⟨7, "me", "m@x.y"⟩)).wire = none ∧
    (handleSendMessage "hi" (some ⟨42, some [⟨7, "me", "m@x.y"⟩], ConvType.direct⟩)
      (some WSReady.closed) (some ⟨7, "me", "m@x.y"⟩)).errorSet = none := by
  refine ⟨?_, ?_, ?_, ?_⟩ <;> decide

/-- Claim C7 as amended: empty/whitespace-only text or no selected
conversation makes handleSendMessage a silent no-op (no frame, no error
state, input not cleared); otherwise it forwards the trimmed text to the
transport, which puts the chat_message frame on the wire only when the
socket is OPEN and a user is logged in; no local error state is set on
any path (the catch assigning one is unreachable). -/
theorem claim_C7_amended (newMessage : String) (selected : Option Conversation)
    (ws : Option WSReady) (user : Option User) :
    (jsTrim newMessage = "" ∨ selected = none →
      handleSendMessage newMessage selected ws user = ⟨none, none, false⟩) ∧
    (jsTrim newMessage ≠ "" → ∀ c, selected = some c →
      handleSendMessage newMessage selected ws user
        = ⟨sendMessage ws user (jsTrim newMessage), none, true⟩) ∧
    (handleSendMessage newMessage selected ws user).errorSet = none := by
  refine ⟨fun h => ?_, fun h c hc => ?_, ?_⟩
  · simp [handleSendMessage, h]
  · simp [handleSendMessage, h, hc]
  · unfold handleSendMessage
    split <;> rfl

/-- Witness for claim C7 as amended, at whitespace input and at a real
send. -/
theorem claim_C7_witness :
    handleSendMessage " " (some ⟨42, none, ConvType.direct⟩)
      (some WSReady.opened) (some ⟨7, "me", "m@x.y"⟩) = ⟨none, none, false⟩ ∧
    handleSendMessage " hi " (some ⟨42, none, ConvType.direct⟩)
      (some WSReady.opened) (some ⟨7, "me", "m@x.y"⟩)
      = ⟨some (OutFrame.chat_message "hi" 7), none, true⟩ :=
  ⟨(claim_C7_amended " " (some ⟨42, none, ConvType.direct⟩)
      (some WSReady.opened) (some ⟨7, "me", "m@x.y"⟩)).1 (Or.inl (by decide)),
   by
    have h := (claim_C7_amended " hi " (some ⟨42, none, ConvType.direct⟩)
      (some WSReady.opened) (some ⟨7, "me", "m@x.y"⟩)).2.1 (by decide)
      ⟨42, none, ConvType.direct⟩ rfl
    rw [h]
    decide⟩

/-- The Message records one dispatched frame contributes: none, or a
single one whose local id is the Date.now() reading. -/
theorem dispatch_messages_shape (cid now : Nat) (raw : RawInbound) :
    ((dispatch cid now raw).filterMap fun cb =>
      match cb with
      | Callback.onMessage m => some m
      | _ => none) = []
    ∨ ∃ m : Message,
        ((dispatch cid now raw).filterMap fun cb =>
          match cb with
          | Callback.onMessage m => some m
          | _ => none) = [m] ∧ m.id = now := by
  cases raw with
  | malformed => exact Or.inl rfl
  | parsed f =>
    obtain ⟨ft, fm, fu, fts, frcv, fit, fou, fst⟩ := f
    cases ft
    · cases fm with
      | none => exact Or.inl rfl
      | some m =>
        cases fu with
        | none => exact Or.inl rfl
        | some u =>
          cases fts with
          | none => exact Or.inl rfl
          | some ts =>
            by_cases hmt : m = "" ∨ ts = ""
            · left
              simp [dispatch, hmt]
            · right
              exact ⟨⟨now, m, u, cid, ts⟩, by simp [dispatch, hmt], rfl⟩
    · cases fu <;> exact Or.inl rfl
    · cases fou <;> cases fst <;> first
        | exact Or.inl rfl
        | exact Or.inl (by simp [dispatch])
    · exact Or.inl rfl

/-- The locally assigned ids are exactly the Date.now() readings at the
accepting arrivals, in order: every accepted message's id is the reading
at its own arrival. -/
theorem msgIds_eq_acceptingTimes (cid : Nat) (arr : List (Nat × RawInbound)) :
    msgIds cid arr = acceptingTimes cid arr := by
  induction arr with
  | nil => rfl
  | cons hd tl ih =>
    obtain ⟨now, raw⟩ := hd
    have hm : msgIds cid ((now, raw) :: tl)
        = ((dispatch cid now raw).filterMap fun cb =>
            match cb with
            | Callback.onMessage m => some m
            | _ => none).map Message.id ++ msgIds cid tl := by
      simp [msgIds, acceptedMessages]
    have ha : acceptingTimes cid ((now, raw) :: tl)
        = (((dispatch cid now raw).filterMap fun cb =>
            match cb with
            | Callback.onMessage m => some m
            | _ => none).map fun _ => now) ++ acceptingTimes cid tl := rfl
    rcases dispatch_messages_shape cid now raw with h | ⟨m, h, hid⟩
    · rw [hm, ha, h, ih]
      rfl
    · rw [hm, ha, h, ih]
      simp [hid]

/-- Claim C5 counterexample: two distinct chat_message frames (no
durable server id in the schema) arriving within the same millisecond —
Date.now() reads 5 for both — receive the same local identity 5, so the
assigned identities are neither distinct nor strictly increasing. -/
theorem claim_C5_counterexample :
    ({ type := FrameType.chat_message, message := some "hello",
       user := some ⟨3, "bob", "b@x.y"⟩,
       timestamp := some "2024-01-01T00:00:00Z" } : WSFrame)
      ≠ { type := FrameType.chat_message, message := some "again",
          user := some ⟨3, "bob", "b@x.y"⟩,
          timestamp := some "2024-01-01T00:00:00Z" } ∧
    msgIds 1
      [(5, RawInbound.parsed
          { type := FrameType.chat_message, message := some "hello",
            user := some ⟨3, "bob", "b@x.y"⟩,
            timestamp := some "2024-01-01T00:00:00Z" }),
       (5, RawInbound.parsed
          { type := FrameType.chat_message, message := some "again",
            user := some ⟨3, "bob", "b@x.y"⟩,
            timestamp := some "2024-01-01T00:00:00Z" })] = [5, 5] ∧
    ¬ (msgIds 1
      [(5, RawInbound.parsed
          { type := FrameType.chat_message, message := some "hello",
            user := some ⟨3, "bob", "b@x.y"⟩,
            timestamp := some "2024-01-01T00:00:00Z" }),
       (5, RawInbound.parsed
          { type := FrameType.chat_message, message := some "again",
            user := some ⟨3, "bob", "b@x.y"⟩,
            timestamp := some "2024-01-01T00:00:00Z" })]).Nodup := by
  refine ⟨by decide, by decide, ?_⟩
  intro h
  have : msgIds 1
      [(5, RawInbound.parsed
          { type := FrameType.chat_message, message := some "hello",
            user := some ⟨3, "bob", "b@x.y"⟩,
            timestamp := some "2024-01-01T00:00:00Z" }),
       (5, RawInbound.parsed
          { type := FrameType.chat_message, message := some "again",
            user := some ⟨3, "bob", "b@x.y"⟩,
            timestamp := some "2024-01-01T00:00:00Z" })] = [5, 5] := by decide
  rw [this] at h
  simp at h

/-- Claim C5 as amended: the local identities of the accepted
chat_messages are exactly the Date.now() readings at the accepting
arrivals, so they are strictly increasing (hence pairwise distinct)
whenever the clock readings at the accepting arrivals are strictly
increasing; accepting arrivals sharing a millisecond share an
identity. -/
theorem claim_C5_amended (cid : Nat) (arr : List (Nat × RawInbound)) :
    msgIds cid arr = acceptingTimes cid arr ∧
    (List.Pairwise (fun a b => a < b) (acceptingTimes cid arr) →
      List.Pairwise (fun a b => a < b) (msgIds cid arr) ∧ (msgIds cid arr).Nodup) := by
  refine ⟨msgIds_eq_acceptingTimes cid arr, fun h => ?_⟩
  rw [msgIds_eq_acceptingTimes cid arr]
  exact ⟨h, h.imp Nat.ne_of_lt⟩

/-- Witness for claim C5 as amended: a trace where a typing frame shares
millisecond 5 with an accepted chat_message and a second chat_message is
accepted at 6 — the readings at the two accepting arrivals are strictly
increasing, so the identities are too. -/
theorem claim_C5_amended_witness :
    List.Pairwise (fun a b => a < b)
      (msgIds 1
        [(5, RawInbound.parsed
            { type := FrameType.typing, user := some ⟨3, "bob", "b@x.y"⟩,
              is_typing := some true }),
         (5, RawInbound.parsed
            { type := FrameType.chat_message, message := some "hello",
              user := some ⟨3, "bob", "b@x.y"⟩,
              timestamp := some "2024-01-01T00:00:00Z" }),
         (6, RawInbound.parsed
            { type := FrameType.chat_message, message := some "again",
              user := some ⟨3, "bob", "b@x.y"⟩,
              timestamp := some "2024-01-01T00:00:00Z" })]) := by
  have h := (claim_C5_amended 1
    [(5, RawInbound.parsed
        { type := FrameType.typing, user := some ⟨3, "bob", "b@x.y"⟩,
          is_typing := some true }),
     (5, RawInbound.parsed
        { type := FrameType.chat_message, message := some "hello",
          user := some ⟨3, "bob", "b@x.y"⟩,
          timestamp := some "2024-01-01T00:00:00Z" }),
     (6, RawInbound.parsed
        { type := FrameType.chat_message, message := some "again",
          user := some ⟨3, "bob", "b@x.y"⟩,
          timestamp := some "2024-01-01T00:00:00Z" })]).2
  refine (h ?_).1
  have he : acceptingTimes 1
      [(5, RawInbound.parsed
          { type := FrameType.typing, user := some ⟨3, "bob", "b@x.y"⟩,
            is_typing := some true }),
       (5, RawInbound.parsed
          { type := FrameType.chat_message, message := some "hello",
            user := some ⟨3, "bob", "b@x.y"⟩,
            timestamp := some "2024-01-01T00:00:00Z" }),
       (6, RawInbound.parsed
          { type := FrameType.chat_message, message := some "again",
            user := some ⟨3, "bob", "b@x.y"⟩,
            timestamp := some "2024-01-01T00:00:00Z" })] = [5, 6] := by decide
  rw [he]
  refine List.Pairwise.cons (fun b hb => ?_) (List.Pairwise.cons (fun b hb => ?_)
    List.Pairwise.nil)
  · cases List.mem_singleton.mp hb
    decide
  · exact absurd hb (List.not_mem_nil b)

/-- Computation of one closure/reconnect cycle for an abnormal closure
code with truthy connection parameters: the reconnect fires after the
fixed 3000 ms delay with the same (conversation id, token) pair, and no
timer stays pending. -/
theorem closeFireCycle_abnormal (cid : Nat) (tok : String) (st : HookState) (code : Nat)
    (hcid : cid ≠ 0) (htok : tok ≠ "") (hcode : code ≠ 1000) :
    closeFireCycle cid tok st code
      = (⟨WSReady.connecting, false, st.connectionError, none⟩,
         [(3000, ⟨cid, tok⟩)]) := by
  simp [closeFireCycle, handleEvent, hcode, connect, jsTruthyNat, jsTruthyStr, hcid, htok]

/-- Computation of one cycle for a normal closure (code 1000) with no
timer pending: nothing is scheduled and nothing fires. -/
theorem closeFireCycle_normal (cid : Nat) (tok : String) (st : HookState)
    (hpend : st.pendingReconnect = none) :
    closeFireCycle cid tok st 1000
      = (⟨WSReady.closed, false, st.connectionError, none⟩, []) := by
  simp [closeFireCycle, handleEvent, hpend]

/-- Claim C1: a closure with code 1000 schedules no reconnect; any other
closure code schedules exactly one reconnect with the fixed 3000 ms
delay; and over any sequence of closures, one reconnect attempt fires
per non-normal closure — always after 3000 ms, always with the same
conversation id and token, indefinitely, with no backoff growth and no
retry cap. -/
theorem claim_C1_reconnect_policy (cid : Nat) (tok : String) (st : HookState)
    (codes : List Nat) :
    (st.pendingReconnect = none →
      (handleEvent cid 0 st (WSEvent.onclose 1000)).1.pendingReconnect = none) ∧
    (∀ code, code ≠ 1000 →
      (handleEvent cid 0 st (WSEvent.onclose code)).1.pendingReconnect = some 3000) ∧
    (cid ≠ 0 → tok ≠ "" → st.pendingReconnect = none →
      reconnectRun cid tok st codes
        = (codes.filter fun c => c ≠ 1000).map fun _ => (3000, ⟨cid, tok⟩)) := by
  refine ⟨fun h => by simp [handleEvent, h],
    fun code hc => by simp [handleEvent, hc], ?_⟩
  intro hcid htok hpend
  induction codes generalizing st with
  | nil => rfl
  | cons code rest ih =>
    by_cases hcode : code = 1000
    · subst hcode
      show (closeFireCycle cid tok st 1000).2
          ++ reconnectRun cid tok (closeFireCycle cid tok st 1000).1 rest = _
      rw [closeFireCycle_normal cid tok st hpend]
      simpa using ih ⟨WSReady.closed, false, st.connectionError, none⟩ rfl
    · show (closeFireCycle cid tok st code).2
          ++ reconnectRun cid tok (closeFireCycle cid tok st code).1 rest = _
      rw [closeFireCycle_abnormal cid tok st code hcid htok hcode]
      simpa [hcode] using
        ih ⟨WSReady.connecting, false, st.connectionError, none⟩ rfl

/-- Witness for claim C1: scenario C of the spec — abnormal closures
with code 1006 each yield one reconnect after 3000 ms with the same
conversation id 42 and token, and a normal closure yields none. -/
theorem claim_C1_witness :
    (handleEvent 42 0 ⟨WSReady.opened, true, none, none⟩
      (WSEvent.onclose 1000)).1.pendingReconnect = none ∧
    reconnectRun 42 "T" ⟨WSReady.opened, true, none, none⟩ [1006, 1006, 1006]
      = [(3000, ⟨42, "T"⟩), (3000, ⟨42, "T"⟩), (3000, ⟨42, "T"⟩)] :=
  ⟨(claim_C1_reconnect_policy 42 "T" ⟨WSReady.opened, true, none, none⟩ []).1 rfl,
   by
    have h := (claim_C1_reconnect_policy 42 "T" ⟨WSReady.opened, true, none, none⟩
      [1006, 1006, 1006]).2.2 (by decide) (by decide) rfl
    rw [h]
    decide⟩

/-- Invariant of the controller bookkeeping: every socket the ref has
abandoned is in the Closed state. -/
def pastDead (st : Ctrl) : Prop := ∀ c ∈ st.past, c.live = false

/-- Closing a socket always leaves it non-live. -/
theorem closeConn_not_live (code : Option Nat) (c : Conn) : (closeConn code c).live = false := by
  unfold closeConn
  split
  · rfl
  · rename_i h
    simpa using h

/-- Connecting preserves the dead-past invariant: the abandoned socket
enters the past closed. -/
theorem pastDead_connect (cid : Nat) (tok : String) (st : Ctrl) (h : pastDead st) :
    pastDead (ctrlConnect cid tok st) := by
  obtain ⟨cur, past⟩ := st
  cases cur with
  | none => exact h
  | some c =>
    intro d hd
    rcases List.mem_cons.mp hd with rfl | hd
    · exact closeConn_not_live none c
    · exact h d hd

/-- Disconnecting preserves the dead-past invariant. -/
theorem pastDead_disconnect (st : Ctrl) (h : pastDead st) : pastDead (ctrlDisconnect st) := by
  obtain ⟨cur, past⟩ := st
  cases cur with
  | none => exact h
  | some c =>
    intro d hd
    rcases List.mem_cons.mp hd with rfl | hd
    · exact closeConn_not_live (some 1000) c
    · exact h d hd

/-- Every controller operation preserves the dead-past invariant. -/
theorem pastDead_step (st : Ctrl) (op : CtrlOp) (h : pastDead st) :
    pastDead (ctrlStep st op) := by
  cases op with
  | setSelection cid tok =>
    show pastDead (if (jsTruthyNat cid && jsTruthyStr tok) = true
      then ctrlConnectGuard cid tok (ctrlDisconnect st)
      else ctrlDisconnect (ctrlDisconnect st))
    split
    · rename_i hguard
      unfold ctrlConnectGuard
      rw [if_pos hguard]
      exact pastDead_connect _ _ _ (pastDead_disconnect st h)
    · exact pastDead_disconnect _ (pastDead_disconnect st h)
  | reconnectFire cid tok =>
    show pastDead (ctrlConnectGuard cid tok st)
    unfold ctrlConnectGuard
    split
    · exact pastDead_connect _ _ _ h
    · exact h
  | closeEvt code => exact h
  | unmount => exact pastDead_disconnect st h

/-- The dead-past invariant holds along any run from the initial state. -/
theorem pastDead_run : ∀ (ops : List CtrlOp) (st : Ctrl), pastDead st →
    pastDead (ops.foldl ctrlStep st)
  | [], _, h => h
  | op :: ops, st, h => pastDead_run ops (ctrlStep st op) (pastDead_step st op h)

/-- Under the dead-past invariant at most one socket is non-Closed: only
the one wsRef currently points at can be live. -/
theorem liveCount_le_one (st : Ctrl) (h : pastDead st) : liveCount st ≤ 1 := by
  obtain ⟨cur, past⟩ := st
  have hp : past.filter (fun c => c.live) = [] := by
    rw [List.filter_eq_nil_iff]
    intro a ha
    simp [h a ha]
  cases cur with
  | none => simp [liveCount, allConns, hp]
  | some c =>
    simp only [liveCount, allConns, Option.toList, List.filter_append, hp,
      List.nil_append, List.length_append, List.length_nil]
    cases hcl : c.live <;> simp [List.filter, hcl]

/-- Claim C2: along every sequence of selections, closures, reconnect
firings and teardowns, at most one socket is in a non-Closed state;
opening for a new pair closes any existing socket first (it lands in the
past non-live), and disconnect/teardown drops the current socket after
closing it with the normal code 1000. -/
theorem claim_C2_single_live_connection (ops : List CtrlOp) (st : Ctrl)
    (c : Conn) (cid : Nat) (tok : String) :
    liveCount (ctrlRun ops) ≤ 1 ∧
    (st.current = some c →
      (ctrlConnect cid tok st).current = some ⟨cid, tok, true, none⟩ ∧
      closeConn none c ∈ (ctrlConnect cid tok st).past ∧
      (closeConn none c).live = false) ∧
    (st.current = some c →
      (ctrlDisconnect st).current = none ∧
      closeConn (some 1000) c ∈ (ctrlDisconnect st).past ∧
      (closeConn (some 1000) c).live = false ∧
      (c.live = true → (closeConn (some 1000) c).closeCode = some 1000)) := by
  refine ⟨liveCount_le_one _ (pastDead_run ops ⟨none, []⟩ fun d hd => absurd hd
    (List.not_mem_nil d)), fun hc => ?_, fun hc => ?_⟩
  · unfold ctrlConnect
    rw [hc]
    exact ⟨rfl, List.mem_cons_self _ _, closeConn_not_live none c⟩
  · unfold ctrlDisconnect
    rw [hc]
    exact ⟨rfl, List.mem_cons_self _ _, closeConn_not_live (some 1000) c,
      fun hl => by simp [closeConn, hl]⟩

/-- Witness for claim C2 on a concrete run (select conversation 1,
abnormal closure, select conversation 2, unmount) and a concrete
disconnect. -/
theorem claim_C2_witness :
    liveCount (ctrlRun [CtrlOp.setSelection (some 1) (some "t"),
      CtrlOp.closeEvt 1006, CtrlOp.setSelection (some 2) (some "t"),
      CtrlOp.unmount]) ≤ 1 ∧
    (ctrlDisconnect ⟨some ⟨1, "t", true, none⟩, []⟩).current = none :=
  ⟨(claim_C2_single_live_connection [CtrlOp.setSelection (some 1) (some "t"),
      CtrlOp.closeEvt 1006, CtrlOp.setSelection (some 2) (some "t"),
      CtrlOp.unmount] ⟨some ⟨1, "t", true, none⟩, []⟩ ⟨1, "t", true, none⟩ 2 "t").1,
   ((claim_C2_single_live_connection [] ⟨some ⟨1, "t", true, none⟩, []⟩
      ⟨1, "t", true, none⟩ 2 "t").2.2 rfl).1⟩

/-- While keystrokes keep arriving less than 500 ms apart, neither armed
timer ever becomes due, so each keystroke just re-arms both; the burst
ends with one start firing 500 ms and one stop firing 2000 ms after the
last keystroke. -/
theorem runTyping_burst (conv : Conversation) (u : User) :
    ∀ (ts : List Nat) (p : Nat),
    List.Chain (fun a b => a < b ∧ b < a + 500) p ts →
    runTyping (some conv) (some u) ⟨some (p + 500), some (p + 2000)⟩ ts
      = [(ts.getLastD p + 500, Emit.start), (ts.getLastD p + 2000, Emit.stop)] := by
  intro ts
  induction ts with
  | nil =>
    intro p _
    simp [runTyping, fireTimers, isDue, List.getLastD]
  | cons t ts ih =>
    intro p hch
    cases hch with
    | cons hrel hch =>
      obtain ⟨hpt, hlt⟩ := hrel
      have h1 : ¬ (p + 500 < t) := by omega
      have h2 : ¬ (p + 2000 < t) := by omega
      have hfire : fireTimers (some t) ⟨some (p + 500), some (p + 2000)⟩
          = (⟨some (p + 500), some (p + 2000)⟩, []) := by
        simp [fireTimers, isDue, h1, h2]
      show (fireTimers (some t) ⟨some (p + 500), some (p + 2000)⟩).2
          ++ runTyping (some conv) (some u)
              (handleTypingStart (some conv) (some u)
                (fireTimers (some t) ⟨some (p + 500), some (p + 2000)⟩).1 t) ts = _
      rw [hfire]
      show runTyping (some conv) (some u) ⟨some (t + 500), some (t + 2000)⟩ ts = _
      rw [ih t hch, List.getLastD_cons]

/-- Claim C8: a burst of keystrokes with consecutive gaps under the
500 ms debounce interval, followed by quiet, produces exactly one
typing-start emission 500 ms after the last keystroke and exactly one
typing-stop emission 2000 ms after it, and no other emission of either
kind until new input arrives (the emission trace is exactly those two
events). -/
theorem claim_C8_typing_debounce (conv : Conversation) (u : User) (t : Nat)
    (ts : List Nat) :
    List.Chain (fun a b => a < b ∧ b < a + 500) t ts →
    runTyping (some conv) (some u) ⟨none, none⟩ (t :: ts)
      = [(ts.getLastD t + 500, Emit.start), (ts.getLastD t + 2000, Emit.stop)] := by
  intro hch
  show (fireTimers (some t) ⟨none, none⟩).2
      ++ runTyping (some conv) (some u)
          (handleTypingStart (some conv) (some u) (fireTimers (some t) ⟨none, none⟩).1 t) ts = _
  rw [show fireTimers (some t) ⟨none, none⟩ = (⟨none, none⟩, []) from rfl]
  show runTyping (some conv) (some u) ⟨some (t + 500), some (t + 2000)⟩ ts = _
  exact runTyping_burst conv u ts t hch

/-- Witness for claim C8: three keystrokes at 0, 100 and 200 ms yield
exactly one start emission at 700 ms and one stop emission at 2200 ms. -/
theorem claim_C8_witness :
    runTyping (some ⟨42, none, ConvType.direct⟩) (some ⟨7, "me", "m@x.y"⟩)
      ⟨none, none⟩ [0, 100, 200]
      = [(700, Emit.start), (2200, Emit.stop)] := by
  have h := claim_C8_typing_debounce ⟨42, none, ConvType.direct⟩ ⟨7, "me", "m@x.y"⟩
    0 [100, 200]
    (List.Chain.cons ⟨by decide, by decide⟩
      (List.Chain.cons ⟨by decide, by decide⟩ List.Chain.nil))
  rw [h]
  rfl

/-- A list whose filtering by p is the singleton [x] has x as the first
element satisfying p. -/
theorem find?_of_filter_singleton {α : Type} (p : α → Bool) :
    ∀ (l : List α) (x : α), l.filter p = [x] → l.find? p = some x := by
  intro l
  induction l with
  | nil => intro x h; simp at h
  | cons a l ih =>
    intro x h
    by_cases hp : p a
    · rw [List.filter_cons_of_pos hp] at h
      rw [List.find?_cons_of_pos _ hp]
      exact congrArg some (List.cons_eq_cons.mp h).1
    · rw [List.filter_cons_of_neg hp] at h
      rw [List.find?_cons_of_neg _ hp]
      exact ih x h

/-- The group branch of a typing emission over an open socket: one frame
per participant whose id differs from the local user's. -/
theorem typingFrames_group_filterMap (u : User) (flag : Bool) :
    ∀ l : List User,
    (l.filterMap fun p =>
      if p.id != u.id then sendTyping (some WSReady.opened) p.id flag else none)
      = (l.filter fun p => p.id != u.id).map fun p => OutFrame.typing p.id flag := by
  intro l
  induction l with
  | nil => rfl
  | cons a l ih =>
    by_cases ha : a.id = u.id <;>
      simp_all [List.filterMap_cons, List.filter_cons, sendTyping]

/-- Claim C9: over an open socket, a typing emission in a group
conversation sends one individually addressed frame to each participant
other than the local user and none to the local user; in a direct
conversation with exactly one other participant it sends exactly one
frame, addressed to that participant. -/
theorem claim_C9_typing_recipients (conv : Conversation) (u : User) (flag : Bool) :
    (conv.conversation_type = ConvType.group →
      typingEmissionFrames (some WSReady.opened) conv u flag
        = ((conv.participants.getD []).filter fun p => p.id != u.id).map
            (fun p => OutFrame.typing p.id flag) ∧
      ∀ r b, OutFrame.typing r b ∈ typingEmissionFrames (some WSReady.opened) conv u flag →
        r ≠ u.id) ∧
    (conv.conversation_type = ConvType.direct → ∀ other : User,
      (conv.participants.getD []).filter (fun p => p.id != u.id) = [other] →
      typingEmissionFrames (some WSReady.opened) conv u flag
        = [OutFrame.typing other.id flag] ∧ other.id ≠ u.id) := by
  constructor
  · intro hg
    have heq : typingEmissionFrames (some WSReady.opened) conv u flag
        = ((conv.participants.getD []).filter fun p => p.id != u.id).map
            (fun p => OutFrame.typing p.id flag) := by
      rw [typingEmissionFrames, if_pos hg]
      exact typingFrames_group_filterMap u flag _
    refine ⟨heq, fun r b hmem => ?_⟩
    rw [heq] at hmem
    obtain ⟨p, hp, hfr⟩ := List.mem_map.mp hmem
    have hpid : (p.id != u.id) = true := (List.mem_filter.mp hp).2
    cases hfr
    exact bne_iff_ne.mp hpid
  · intro hd other hfilter
    have hne : conv.conversation_type ≠ ConvType.group := by
      rw [hd]
      intro hcontra
      cases hcontra
    have hfind := find?_of_filter_singleton _ _ _ hfilter
    have hmem : other ∈ (conv.participants.getD []).filter fun p => p.id != u.id := by
      rw [hfilter]
      exact List.mem_cons_self _ _
    have hother : (other.id != u.id) = true := (List.mem_filter.mp hmem).2
    constructor
    · rw [typingEmissionFrames, if_neg hne, hfind]
      rfl
    · exact bne_iff_ne.mp hother

/-- Witness for claim C9 in a group of three and in a direct
conversation. -/
theorem claim_C9_witness :
    typingEmissionFrames (some WSReady.opened)
      ⟨9, some [⟨7, "me", "m@x.y"⟩, ⟨3, "bob", "b@x.y"⟩, ⟨4, "eve", "e@x.y"⟩],
        ConvType.group⟩ ⟨7, "me", "m@x.y"⟩ true
      = [OutFrame.typing 3 true, OutFrame.typing 4 true] ∧
    typingEmissionFrames (some WSReady.opened)
      ⟨8, some [⟨7, "me", "m@x.y"⟩, ⟨3, "bob", "b@x.y"⟩], ConvType.direct⟩
      ⟨7, "me", "m@x.y"⟩ false
      = [OutFrame.typing 3 false] := by
  constructor
  · have h := ((claim_C9_typing_recipients
      ⟨9, some [⟨7, "me", "m@x.y"⟩, ⟨3, "bob", "b@x.y"⟩, ⟨4, "eve", "e@x.y"⟩],
        ConvType.group⟩ ⟨7, "me", "m@x.y"⟩ true).1 rfl).1
    rw [h]
    decide
  · exact (((claim_C9_typing_recipients
      ⟨8, some [⟨7, "me", "m@x.y"⟩, ⟨3, "bob", "b@x.y"⟩], ConvType.direct⟩
      ⟨7, "me", "m@x.y"⟩ false).2 rfl ⟨3, "bob", "b@x.y"⟩ (by decide)).1)

/-- Claim C10: in a direct conversation with no participant other than
the local user — or with no participant list at all — a typing emission
over an open socket is not suppressed: one frame is still sent,
addressed to receiver id 0 (the JavaScript fallback `|| 0`). -/
theorem claim_C10_fallback_receiver_zero (conv : Conversation) (u : User) (flag : Bool) :
    conv.conversation_type = ConvType.direct →
    (conv.participants = none ∨
      (conv.participants.getD []).filter (fun p => p.id != u.id) = []) →
    typingEmissionFrames (some WSReady.opened) conv u flag
      = [OutFrame.typing 0 flag] := by
  intro hd hemp
  have hne : conv.conversation_type ≠ ConvType.group := by
    rw [hd]
    intro hcontra
    cases hcontra
  have hfind : (conv.participants.getD []).find? (fun p => p.id != u.id) = none := by
    rcases hemp with h | h
    · rw [h]
      rfl
    · rw [List.find?_eq_none]
      intro a ha
      have := List.filter_eq_nil_iff.mp h a ha
      simpa using this
  rw [typingEmissionFrames, if_neg hne, hfind]
  rfl

/-- Witness for claim C10: a direct conversation whose only listed
participant is the local user, and both emission kinds. -/
theorem claim_C10_witness :
    typingEmissionFrames (some WSReady.opened)
      ⟨8, some [⟨7, "me", "m@x.y"⟩], ConvType.direct⟩ ⟨7, "me", "m@x.y"⟩ true
      = [OutFrame.typing 0 true] ∧
    typingEmissionFrames (some WSReady.opened)
      ⟨8, none, ConvType.direct⟩ ⟨7, "me", "m@x.y"⟩ false
      = [OutFrame.typing 0 false] :=
  ⟨claim_C10_fallback_receiver_zero ⟨8, some [⟨7, "me", "m@x.y"⟩], ConvType.direct⟩
      ⟨7, "me", "m@x.y"⟩ true rfl (Or.inr (by decide)),
   claim_C10_fallback_receiver_zero ⟨8, none, ConvType.direct⟩
      ⟨7, "me", "m@x.y"⟩ false rfl (Or.inl rfl)⟩

end AstroChat
